import Mathlib

/-!
Verification of `Client.GlobalStatus` (common/client/status.go).

A shallow embedding of the one operation of `status.go`: the daemon status
query.  The Go function talks to three collaborators that live outside the
file (the HTTP request primitive `cli.R().Get`, the package helper
`processErrorBody` and `json.Unmarshal`); they are parameters of the model, so
every theorem quantifies over all of their behaviours.  Network I/O is made
explicit as a trace of events; the trace is extended only by the primitives
that the function calls, never by the function itself.
-/

namespace CiliumClient

/-! ## Data model -/

/-- A Go `[]byte`: one list element per byte. -/
abbrev Bytes := List Nat

/-- A non-nil value of Go's `error` interface, as far as a caller can observe
it: the dynamic type behind the interface and the text of its `Error()`
method.  Pointer identity is abstracted away: two values of the same dynamic
type and text are the same error. -/
structure ErrorValue where
  dynType : String
  msg : String
deriving DecidableEq, Repr

/-- Go's `error` interface type; `none` is the `nil` error. -/
abbrev GoError := Option ErrorValue

/-- The `Error()` method of an error value. -/
def ErrorValue.Error (e : ErrorValue) : String := e.msg

/-- `errors.New(text)`: a plain message error. -/
def errorsNew (text : String) : ErrorValue :=
  { dynType := "*errors.errorString", msg := text }

/-- Expansion of the first `%s` verb of a format string by the operand's
text (the part of `fmt.Sprintf` that `status.go` uses). -/
def expandVerb : List Char → List Char → List Char
  | [], _ => []
  | '%' :: 's' :: rest, arg => arg ++ rest
  | c :: rest, arg => c :: expandVerb rest arg

/-- `fmt.Errorf(format, a)` with one error operand formatted by `%s`: the
operand contributes the text of its `Error()` method, and the result is
`errors.New` of the formatted text. -/
def Errorf (format : String) (a : ErrorValue) : ErrorValue :=
  errorsNew (String.mk (expandVerb format.data a.Error.data))

/-- An argument of type `interface{}`; `GlobalStatus` only ever passes `nil`. -/
inductive Iface where
  | nil
  | value (repr : String)
deriving DecidableEq, Repr

/-- An HTTP request as built through the request builder. -/
structure Request where
  method : String
  url : String
  body : Option Bytes
  queryParam : List (String × String)
deriving DecidableEq, Repr

/-- The server response handed back by the request primitive. -/
structure Response where
  statusCode : Int
  body : Bytes
deriving DecidableEq, Repr

/-- `serverResp.StatusCode()`. -/
def Response.StatusCode (r : Response) : Int := r.statusCode

/-- `serverResp.Body()`. -/
def Response.Body (r : Response) : Bytes := r.body

/-- `http.StatusOK`. -/
def StatusOK : Int := 200

/-- One observable step of a call: an invocation of the request primitive
(`call`), a request that the HTTP library handed to its transport while it
served such an invocation (`request`), a hand-over of a body to
`processErrorBody`, or a hand-over of a body to `json.Unmarshal`. -/
inductive Event where
  | call (r : Request)
  | request (r : Request)
  | processErrorBody (body : Bytes) (i : Iface)
  | unmarshal (body : Bytes)
deriving DecidableEq, Repr

/-- The receiver `cli`, an HTTP client outside `status.go`.  `R` is the request
that `cli.R()` returns.  `execute` is the answer `(serverResp, err)` of an
executed request, and `wire` lists the requests that the library hands to its
transport for it (one in the usual case, none when the request fails before
it is sent); both may depend on everything that happened before (the trace). -/
structure Client where
  R : Request
  execute : List Event → Request → Response × GoError
  wire : List Event → Request → List Request

/-- The package-level collaborators of `GlobalStatus` and the zero value of
`types.StatusResponse` (a type declared outside `status.go`).
`Unmarshal body v` is `json.Unmarshal(body, &v)`: it returns the value left in
`v` (possibly partially filled) together with the error. -/
structure Deps (StatusResponse : Type) where
  zero : StatusResponse
  processErrorBody : Bytes → Iface → GoError
  Unmarshal : Bytes → StatusResponse → StatusResponse × GoError

/-- The request that `r.Get(url)` executes: `r` with the method and the URL
set and everything else as it was. -/
def Request.Get (r : Request) (url : String) : Request :=
  { r with method := "GET", url := url }

/-- Execution of a request, the one primitive through which `status.go`
reaches the daemon.  It records the invocation and the requests that the
library hands to its transport, and returns the library's answer. -/
def Client.Do (cli : Client) (req : Request) (tr : List Event) :
    (Response × GoError) × List Event :=
  (cli.execute tr req, tr ++ Event.call req :: (cli.wire tr req).map Event.request)

/-- The call `processErrorBody(body, i)`, recorded in the trace. -/
def Deps.runProcessErrorBody {StatusResponse : Type} (d : Deps StatusResponse)
    (body : Bytes) (i : Iface) (tr : List Event) : GoError × List Event :=
  (d.processErrorBody body i, tr ++ [Event.processErrorBody body i])

/-- The call `json.Unmarshal(body, &v)`, recorded in the trace. -/
def Deps.runUnmarshal {StatusResponse : Type} (d : Deps StatusResponse)
    (body : Bytes) (v : StatusResponse) (tr : List Event) :
    (StatusResponse × GoError) × List Event :=
  (d.Unmarshal body v, tr ++ [Event.unmarshal body])

/-! ## The operation -/

/-- `func (cli Client) GlobalStatus() (*types.StatusResponse, error)`.
The result pointer is an `Option` (`none` is `nil`); the second component of
the output is the trace as the called primitives leave it. -/
def GlobalStatus {StatusResponse : Type} (d : Deps StatusResponse) (cli : Client)
    (tr : List Event) : (Option StatusResponse × GoError) × List Event :=
  match cli.Do (cli.R.Get "/healthz") tr with
  | ((_, some err), tr1) =>
    ((none, some (Errorf "error while connecting to daemon: %s" err)), tr1)
  | ((serverResp, none), tr1) =>
    if serverResp.StatusCode ≠ StatusOK then
      match d.runProcessErrorBody serverResp.Body Iface.nil tr1 with
      | (perr, tr2) => ((none, perr), tr2)
    else
      match d.runUnmarshal serverResp.Body d.zero tr1 with
      | ((_, some err), tr2) => ((none, some err), tr2)
      | ((resp, none), tr2) => ((some resp, none), tr2)

/-- The invocations of the request primitive among the events of a trace, in
order. -/
def callsOf : List Event → List Request
  | [] => []
  | Event.call r :: rest => r :: callsOf rest
  | _ :: rest => callsOf rest

/-- The requests handed to the transport among the events of a trace, in
order. -/
def requestsOf : List Event → List Request
  | [] => []
  | Event.request r :: rest => r :: requestsOf rest
  | _ :: rest => requestsOf rest

/-- The three stages of the call at which it can fail. -/
inductive Stage where
  | transport
  | protocol
  | payload
deriving DecidableEq, Repr

/-- The stage at which a call fails, read off the collaborators' answers:
`none` when all three stages succeed. -/
def failingStage {StatusResponse : Type} (d : Deps StatusResponse) (cli : Client)
    (tr : List Event) : Option Stage :=
  let out := cli.execute tr (cli.R.Get "/healthz")
  if out.2 ≠ none then some Stage.transport
  else if out.1.StatusCode ≠ StatusOK then some Stage.protocol
  else if (d.Unmarshal out.1.Body d.zero).2 ≠ none then some Stage.payload
  else none

/-! ## Sample collaborators used to instantiate the theorems -/

/-- A sample shape for `types.StatusResponse`: one component status. -/
structure SampleStatus where
  cilium : String
deriving DecidableEq, Repr

/-- Bytes of `{"cilium":"OK"}`. -/
def bodyCiliumOK : Bytes :=
  [123, 34, 99, 105, 108, 105, 117, 109, 34, 58, 34, 79, 75, 34, 125]

/-- Bytes of `{"cilium":5}`: well-formed JSON of the wrong shape. -/
def bodyCiliumFive : Bytes :=
  [123, 34, 99, 105, 108, 105, 117, 109, 34, 58, 53, 125]

/-- Bytes of `not-json`. -/
def bodyNotJson : Bytes := [110, 111, 116, 45, 106, 115, 111, 110]

/-- The error `encoding/json` reports for `not-json`. -/
def jsonMalformed : ErrorValue :=
  { dynType := "*json.SyntaxError",
    msg := "invalid character 'o' in literal null (expecting 'u')" }

/-- The error `encoding/json` reports for a number where a string is expected. -/
def jsonMismatch : ErrorValue :=
  { dynType := "*json.UnmarshalTypeError",
    msg := "json: cannot unmarshal number into Go struct field .cilium of type string" }

/-- A decoder that behaves like `json.Unmarshal` on the three sample bodies
and reports a malformed body otherwise. -/
def sampleUnmarshal (body : Bytes) (v : SampleStatus) : SampleStatus × GoError :=
  if body = bodyCiliumOK then ({ cilium := "OK" }, none)
  else if body = bodyCiliumFive then (v, some jsonMismatch)
  else (v, some jsonMalformed)

/-- An error-body processor that reports every body as a server error. -/
def sampleProcess (_ : Bytes) (_ : Iface) : GoError :=
  some { dynType := "*types.ServerError", msg := "server error" }

/-- Sample collaborators. -/
def sampleDeps : Deps SampleStatus :=
  { zero := { cilium := "" }, processErrorBody := sampleProcess, Unmarshal := sampleUnmarshal }

/-- A request with nothing set, as a request builder hands out. -/
def freshRequest : Request := { method := "", url := "", body := none, queryParam := [] }

/-- A daemon that always answers with the given status code and body; every
request is handed to the transport once. -/
def answering (code : Int) (body : Bytes) : Client :=
  { R := freshRequest,
    execute := fun _ _ => ({ statusCode := code, body := body }, none),
    wire := fun _ r => [r] }

/-- An unreachable daemon: every request is handed to the transport and fails
there with the given error. -/
def failing (e : ErrorValue) : Client :=
  { R := freshRequest,
    execute := fun _ _ => ({ statusCode := 0, body := [] }, some e),
    wire := fun _ r => [r] }

/-- A client whose requests fail with the given error before they are sent:
nothing is handed to the transport. -/
def failingBeforeSend (e : ErrorValue) : Client :=
  { R := freshRequest,
    execute := fun _ _ => ({ statusCode := 0, body := [] }, some e),
    wire := fun _ _ => [] }

/-- The error of a request whose URL cannot be built. -/
def badHostURL : ErrorValue :=
  { dynType := "*url.Error", msg := "parse http://[::1/healthz: missing ']' in host" }

/-- The transport error of a refused connection. -/
def connRefused : ErrorValue :=
  { dynType := "*url.Error",
    msg := "Get /healthz: dial unix /var/run/cilium.sock: connect: connection refused" }

/-- A daemon answer that carries a response and a transport error at once. -/
def answeringWithError (code : Int) (body : Bytes) (e : ErrorValue) : Client :=
  { R := freshRequest,
    execute := fun _ _ => ({ statusCode := code, body := body }, some e),
    wire := fun _ r => [r] }

/-- A second transport error with the text of `connRefused` but another
dynamic type. -/
def connRefusedOp : ErrorValue :=
  { dynType := "*net.OpError",
    msg := "Get /healthz: dial unix /var/run/cilium.sock: connect: connection refused" }

/-- Collaborators whose error-body processor finds nothing to report and
returns the `nil` error. -/
def silentDeps : Deps SampleStatus :=
  { zero := { cilium := "" }, processErrorBody := fun _ _ => none,
    Unmarshal := sampleUnmarshal }

/-- Collaborators whose decoder fills the `cilium` field and then fails. -/
def partialDeps : Deps SampleStatus :=
  { zero := { cilium := "" }, processErrorBody := sampleProcess,
    Unmarshal := fun _ _ => ({ cilium := "OK" }, some jsonMismatch) }

/-- An error is a connection error of `GlobalStatus` when it is the formatted
transport-branch error of some cause. -/
def IsConnectionError (e : ErrorValue) : Prop :=
  ∃ cause : ErrorValue, e = Errorf "error while connecting to daemon: %s" cause

/-! ## Branch lemmas -/

/-- The format string of the transport branch expands to the fixed lead text
followed by the text of the cause. -/
theorem Errorf_connecting (e : ErrorValue) :
    Errorf "error while connecting to daemon: %s" e
      = errorsNew ("error while connecting to daemon: " ++ e.msg) := by
  obtain ⟨dt, ⟨m⟩⟩ := e
  have h : expandVerb "error while connecting to daemon: %s".data m
      = "error while connecting to daemon: ".data ++ m := by
    simp [expandVerb]
  simp only [Errorf, ErrorValue.Error, h]
  rfl

/-- Transport branch: the request primitive reported an error. -/
theorem GlobalStatus_transport {σ : Type} (d : Deps σ) (cli : Client) (tr : List Event)
    (r : Response) (e : ErrorValue)
    (h : cli.execute tr (cli.R.Get "/healthz") = (r, some e)) :
    GlobalStatus d cli tr
      = ((none, some (Errorf "error while connecting to daemon: %s" e)),
          (cli.Do (cli.R.Get "/healthz") tr).2) := by
  simp only [GlobalStatus, Client.Do, h]

/-- Protocol branch: a response arrived whose status code is not 200. -/
theorem GlobalStatus_protocol {σ : Type} (d : Deps σ) (cli : Client) (tr : List Event)
    (r : Response) (h : cli.execute tr (cli.R.Get "/healthz") = (r, none))
    (hc : r.StatusCode ≠ StatusOK) :
    GlobalStatus d cli tr
      = ((none, d.processErrorBody r.Body Iface.nil),
          (cli.Do (cli.R.Get "/healthz") tr).2
            ++ [Event.processErrorBody r.Body Iface.nil]) := by
  simp only [GlobalStatus, Client.Do, Deps.runProcessErrorBody, h, hc, ne_eq,
    not_false_eq_true, if_true]

/-- Payload branch, decoder failure. -/
theorem GlobalStatus_payload {σ : Type} (d : Deps σ) (cli : Client) (tr : List Event)
    (r : Response) (v : σ) (e : ErrorValue)
    (h : cli.execute tr (cli.R.Get "/healthz") = (r, none))
    (hc : r.StatusCode = StatusOK) (hu : d.Unmarshal r.Body d.zero = (v, some e)) :
    GlobalStatus d cli tr
      = ((none, some e),
          (cli.Do (cli.R.Get "/healthz") tr).2 ++ [Event.unmarshal r.Body]) := by
  simp only [GlobalStatus, Client.Do, Deps.runUnmarshal, h, hc, hu, ne_eq,
    not_true_eq_false, if_false]

/-- Success branch. -/
theorem GlobalStatus_success {σ : Type} (d : Deps σ) (cli : Client) (tr : List Event)
    (r : Response) (v : σ)
    (h : cli.execute tr (cli.R.Get "/healthz") = (r, none))
    (hc : r.StatusCode = StatusOK) (hu : d.Unmarshal r.Body d.zero = (v, none)) :
    GlobalStatus d cli tr
      = ((some v, none),
          (cli.Do (cli.R.Get "/healthz") tr).2 ++ [Event.unmarshal r.Body]) := by
  simp only [GlobalStatus, Client.Do, Deps.runUnmarshal, h, hc, hu, ne_eq,
    not_true_eq_false, if_false]

/-- The four branches cover every call. -/
theorem GlobalStatus_cases {σ : Type} (d : Deps σ) (cli : Client) (tr : List Event) :
    (∃ r e, cli.execute tr (cli.R.Get "/healthz") = (r, some e)) ∨
    (∃ r, cli.execute tr (cli.R.Get "/healthz") = (r, none) ∧ r.StatusCode ≠ StatusOK) ∨
    (∃ r v e, cli.execute tr (cli.R.Get "/healthz") = (r, none) ∧ r.StatusCode = StatusOK
        ∧ d.Unmarshal r.Body d.zero = (v, some e)) ∨
    (∃ r v, cli.execute tr (cli.R.Get "/healthz") = (r, none) ∧ r.StatusCode = StatusOK
        ∧ d.Unmarshal r.Body d.zero = (v, none)) := by
  rcases hx : cli.execute tr (cli.R.Get "/healthz") with ⟨r, _ | e⟩
  · by_cases hc : r.StatusCode = StatusOK
    · rcases hu : d.Unmarshal r.Body d.zero with ⟨v, _ | e⟩
      · exact Or.inr (Or.inr (Or.inr ⟨r, v, rfl, hc, hu⟩))
      · exact Or.inr (Or.inr (Or.inl ⟨r, v, e, rfl, hc, hu⟩))
    · exact Or.inr (Or.inl ⟨r, rfl, hc⟩)
  · exact Or.inl ⟨r, e, rfl⟩

/-- Requests of a concatenated trace. -/
theorem requestsOf_append (a b : List Event) :
    requestsOf (a ++ b) = requestsOf a ++ requestsOf b := by
  induction a with
  | nil => rfl
  | cons x xs ih => cases x <;> simp [requestsOf, ih]

/-- Invocations of a concatenated trace. -/
theorem callsOf_append (a b : List Event) :
    callsOf (a ++ b) = callsOf a ++ callsOf b := by
  induction a with
  | nil => rfl
  | cons x xs ih => cases x <;> simp [callsOf, ih]

/-- The requests handed to the transport are requests and no invocations. -/
theorem requestsOf_map_request (rs : List Request) :
    requestsOf (rs.map Event.request) = rs ∧ callsOf (rs.map Event.request) = [] := by
  induction rs with
  | nil => exact ⟨rfl, rfl⟩
  | cons x xs ih => simp [requestsOf, callsOf, ih.1, ih.2]

/-- What one execution of a request adds to the trace: one invocation and the
requests that the library hands to its transport for it. -/
theorem Client_Do_trace (cli : Client) (req : Request) (tr : List Event) :
    callsOf (cli.Do req tr).2 = callsOf tr ++ [req] ∧
    requestsOf (cli.Do req tr).2 = requestsOf tr ++ cli.wire tr req := by
  simp [Client.Do, callsOf_append, requestsOf_append, callsOf, requestsOf,
    requestsOf_map_request]

/-! ## Claims -/

/-- C1: when a response with a status code other than 200 is received, the
call returns a nil result and exactly the error that `processErrorBody` yields
for the response body with a nil context, whatever the body is and whatever
the JSON decoder would do with it. -/
theorem C1_non200_yields_processor_error {σ : Type} (d : Deps σ) (cli : Client)
    (tr : List Event) (r : Response) (U : Bytes → σ → σ × GoError)
    (h : cli.execute tr (cli.R.Get "/healthz") = (r, none))
    (hc : r.StatusCode ≠ 200) :
    (GlobalStatus { d with Unmarshal := U } cli tr).1
      = (none, d.processErrorBody r.Body Iface.nil) := by
  have hc2 : r.StatusCode ≠ StatusOK := hc
  rw [GlobalStatus_protocol { d with Unmarshal := U } cli tr r h hc2]

/-- C1 at status 500 with the body `{"cilium":"OK"}`, which the decoder would
accept. -/
theorem C1_non200_yields_processor_error_witness :
    (GlobalStatus { sampleDeps with Unmarshal := sampleUnmarshal }
        (answering 500 bodyCiliumOK) []).1
      = (none, sampleDeps.processErrorBody
          (Response.Body { statusCode := 500, body := bodyCiliumOK }) Iface.nil) :=
  C1_non200_yields_processor_error sampleDeps (answering 500 bodyCiliumOK) []
    { statusCode := 500, body := bodyCiliumOK } sampleUnmarshal rfl (by decide)

/-- C2: when the GET request returns an error, the call returns a nil result
and the non-nil connection error; the whole outcome is the same for every
choice of decoder and error-body processor, and the trace gains what the one
execution of the request leaves and nothing else: no body is handed to the
decoder or to the processor. -/
theorem C2_transport_error {σ : Type} (d d2 : Deps σ) (cli : Client) (tr : List Event)
    (r : Response) (e : ErrorValue)
    (h : cli.execute tr (cli.R.Get "/healthz") = (r, some e)) :
    (GlobalStatus d cli tr).1.1 = none ∧
    (GlobalStatus d cli tr).1.2
      = some (errorsNew ("error while connecting to daemon: " ++ e.msg)) ∧
    (GlobalStatus d cli tr).1.2 ≠ none ∧
    GlobalStatus d cli tr = GlobalStatus d2 cli tr ∧
    (GlobalStatus d cli tr).2
      = tr ++ Event.call (cli.R.Get "/healthz")
          :: (cli.wire tr (cli.R.Get "/healthz")).map Event.request := by
  rw [GlobalStatus_transport d cli tr r e h, GlobalStatus_transport d2 cli tr r e h,
    Errorf_connecting]
  simp [Client.Do]

/-- C2 at a refused connection, comparing two different sets of collaborators. -/
theorem C2_transport_error_witness :
    (GlobalStatus sampleDeps (failing connRefused) []).1.1 = none ∧
    (GlobalStatus sampleDeps (failing connRefused) []).1.2
      = some (errorsNew ("error while connecting to daemon: " ++ connRefused.msg)) ∧
    (GlobalStatus sampleDeps (failing connRefused) []).1.2 ≠ none ∧
    GlobalStatus sampleDeps (failing connRefused) []
      = GlobalStatus silentDeps (failing connRefused) [] ∧
    (GlobalStatus sampleDeps (failing connRefused) []).2
      = [] ++ Event.call ((failing connRefused).R.Get "/healthz")
          :: ((failing connRefused).wire [] ((failing connRefused).R.Get "/healthz")).map
              Event.request :=
  C2_transport_error sampleDeps silentDeps (failing connRefused) []
    { statusCode := 0, body := [] } connRefused rfl

/-- C3: when the response has status 200 and the decoder turns its body into
the value `v` without error, the call returns `v` as its non-nil result and a
nil error. -/
theorem C3_success {σ : Type} (d : Deps σ) (cli : Client) (tr : List Event)
    (r : Response) (v : σ)
    (h : cli.execute tr (cli.R.Get "/healthz") = (r, none))
    (hc : r.StatusCode = 200)
    (hu : d.Unmarshal r.Body d.zero = (v, none)) :
    (GlobalStatus d cli tr).1 = (some v, none) := by
  have hc2 : r.StatusCode = StatusOK := hc
  rw [GlobalStatus_success d cli tr r v h hc2 hu]

/-- C3 at status 200 with the body `{"cilium":"OK"}`. -/
theorem C3_success_witness :
    (GlobalStatus sampleDeps (answering 200 bodyCiliumOK) []).1
      = (some { cilium := "OK" }, none) :=
  C3_success sampleDeps (answering 200 bodyCiliumOK) []
    { statusCode := 200, body := bodyCiliumOK } { cilium := "OK" } rfl rfl (by decide)

/-- C4 (as amended): when the response has status 200 and the decoder fails on
its body with the error `e`, the call returns a nil result together with `e`
itself, unchanged; this holds even when the decoder left a partially filled
value behind. -/
theorem C4_decode_failure_returns_decoder_error {σ : Type} (d : Deps σ) (cli : Client)
    (tr : List Event) (r : Response) (v : σ) (e : ErrorValue)
    (h : cli.execute tr (cli.R.Get "/healthz") = (r, none))
    (hc : r.StatusCode = 200)
    (hu : d.Unmarshal r.Body d.zero = (v, some e)) :
    (GlobalStatus d cli tr).1 = (none, some e) := by
  have hc2 : r.StatusCode = StatusOK := hc
  rw [GlobalStatus_payload d cli tr r v e h hc2 hu]

/-- C4 (as amended) at status 200 with the body `not-json`. -/
theorem C4_decode_failure_returns_decoder_error_witness :
    (GlobalStatus sampleDeps (answering 200 bodyNotJson) []).1 = (none, some jsonMalformed) :=
  C4_decode_failure_returns_decoder_error sampleDeps (answering 200 bodyNotJson) []
    { statusCode := 200, body := bodyNotJson } { cilium := "" } jsonMalformed
    rfl rfl (by decide)

/-- C4 (as stated) fails: for the malformed body `not-json` and for the
mismatched body `{"cilium":5}` the returned errors are the decoder's two own
error values, of two different dynamic types, so the returned errors do not
share one decode-error kind laid around the parse failure. -/
theorem C4_no_decode_error_kind :
    (GlobalStatus sampleDeps (answering 200 bodyNotJson) []).1.2 = some jsonMalformed ∧
    (GlobalStatus sampleDeps (answering 200 bodyCiliumFive) []).1.2 = some jsonMismatch ∧
    ¬ ∃ decodeKind : String, ∀ (body : Bytes) (p : ErrorValue),
        (sampleDeps.Unmarshal body sampleDeps.zero).2 = some p →
        ∃ w, (GlobalStatus sampleDeps (answering 200 body) []).1.2 = some w
          ∧ w.dynType = decodeKind := by
  refine ⟨by decide, by decide, ?_⟩
  rintro ⟨k, hk⟩
  obtain ⟨w1, h1, k1⟩ := hk bodyNotJson jsonMalformed (by decide)
  obtain ⟨w2, h2, k2⟩ := hk bodyCiliumFive jsonMismatch (by decide)
  have e1 : (GlobalStatus sampleDeps (answering 200 bodyNotJson) []).1.2
      = some jsonMalformed := by decide
  have e2 : (GlobalStatus sampleDeps (answering 200 bodyCiliumFive) []).1.2
      = some jsonMismatch := by decide
  rw [e1] at h1
  rw [e2] at h2
  cases h1
  cases h2
  rw [← k1] at k2
  revert k2
  decide

/-- C5 (as amended): the result and the error are never both non-nil, for
every transport outcome, status code, body and every behaviour of the
collaborators; and when the error-body processor never returns the nil error
they are never both nil either, so that the result is non-nil exactly when the
error is nil. -/
theorem C5_exactly_one_of_result_and_error {σ : Type} (d : Deps σ) (cli : Client)
    (tr : List Event) :
    ¬ ((GlobalStatus d cli tr).1.1 ≠ none ∧ (GlobalStatus d cli tr).1.2 ≠ none) ∧
    ((∀ body : Bytes, d.processErrorBody body Iface.nil ≠ none) →
      ¬ ((GlobalStatus d cli tr).1.1 = none ∧ (GlobalStatus d cli tr).1.2 = none)) ∧
    ((∀ body : Bytes, d.processErrorBody body Iface.nil ≠ none) →
      ((GlobalStatus d cli tr).1.1 ≠ none ↔ (GlobalStatus d cli tr).1.2 = none)) := by
  rcases GlobalStatus_cases d cli tr with ⟨r, e, h⟩ | ⟨r, h, hc⟩ | ⟨r, v, e, h, hc, hu⟩ |
    ⟨r, v, h, hc, hu⟩
  · rw [GlobalStatus_transport d cli tr r e h]
    simp
  · rw [GlobalStatus_protocol d cli tr r h hc]
    refine ⟨by simp, fun hproc => ?_, fun hproc => ?_⟩
    · simpa using hproc r.Body
    · simpa using hproc r.Body
  · rw [GlobalStatus_payload d cli tr r v e h hc hu]
    simp
  · rw [GlobalStatus_success d cli tr r v h hc hu]
    simp

/-- C5 (as amended) at status 500 and a processor that reports every body as
an error. -/
theorem C5_exactly_one_of_result_and_error_witness :
    ¬ ((GlobalStatus sampleDeps (answering 500 []) []).1.1 ≠ none
        ∧ (GlobalStatus sampleDeps (answering 500 []) []).1.2 ≠ none) ∧
    ¬ ((GlobalStatus sampleDeps (answering 500 []) []).1.1 = none
        ∧ (GlobalStatus sampleDeps (answering 500 []) []).1.2 = none) ∧
    ((GlobalStatus sampleDeps (answering 500 []) []).1.1 ≠ none
      ↔ (GlobalStatus sampleDeps (answering 500 []) []).1.2 = none) :=
  ⟨(C5_exactly_one_of_result_and_error sampleDeps (answering 500 []) []).1,
    (C5_exactly_one_of_result_and_error sampleDeps (answering 500 []) []).2.1
      (fun _ => by simp [sampleDeps, sampleProcess]),
    (C5_exactly_one_of_result_and_error sampleDeps (answering 500 []) []).2.2
      (fun _ => by simp [sampleDeps, sampleProcess])⟩

/-- C5 (as stated) fails: with status 500 and an error-body processor that
returns the nil error, the call returns a nil result and a nil error. -/
theorem C5_both_nil :
    (GlobalStatus silentDeps (answering 500 []) []).1 = (none, none) ∧
    ¬ ((GlobalStatus silentDeps (answering 500 []) []).1.1 ≠ none
        ↔ (GlobalStatus silentDeps (answering 500 []) []).1.2 = none) := by
  decide

/-- C6 (as amended): on a transport error `e` the returned error is a plain
message error whose text is exactly "error while connecting to daemon: "
followed by the text of `e`; it contains "error while connecting to daemon",
and it depends on the cause through the cause's text only. -/
theorem C6_connection_error_message {σ : Type} (d : Deps σ) (cli : Client)
    (tr : List Event) (r : Response) (e : ErrorValue)
    (h : cli.execute tr (cli.R.Get "/healthz") = (r, some e)) :
    ∃ w : ErrorValue, (GlobalStatus d cli tr).1.2 = some w ∧
      w.dynType = "*errors.errorString" ∧
      w.Error = "error while connecting to daemon: " ++ e.Error ∧
      (∃ t, w.Error = "error while connecting to daemon" ++ t) ∧
      ∀ (cli2 : Client) (tr2 : List Event) (r2 : Response) (e2 : ErrorValue),
        cli2.execute tr2 (cli2.R.Get "/healthz") = (r2, some e2) → e2.Error = e.Error →
        (GlobalStatus d cli2 tr2).1.2 = some w := by
  refine ⟨errorsNew ("error while connecting to daemon: " ++ e.msg), ?_, rfl, rfl, ?_, ?_⟩
  · rw [GlobalStatus_transport d cli tr r e h, Errorf_connecting]
  · refine ⟨": " ++ e.msg, ?_⟩
    show "error while connecting to daemon: " ++ e.msg
      = "error while connecting to daemon" ++ (": " ++ e.msg)
    rw [← String.append_assoc]
    rfl
  · intro cli2 tr2 r2 e2 h2 hm
    have hm2 : e2.msg = e.msg := hm
    rw [GlobalStatus_transport d cli2 tr2 r2 e2 h2, Errorf_connecting, hm2]

/-- C6 (as amended) at a refused connection. -/
theorem C6_connection_error_message_witness :
    ∃ w : ErrorValue, (GlobalStatus sampleDeps (failing connRefused) []).1.2 = some w ∧
      w.dynType = "*errors.errorString" ∧
      w.Error = "error while connecting to daemon: " ++ connRefused.Error ∧
      (∃ t, w.Error = "error while connecting to daemon" ++ t) ∧
      ∀ (cli2 : Client) (tr2 : List Event) (r2 : Response) (e2 : ErrorValue),
        cli2.execute tr2 (cli2.R.Get "/healthz") = (r2, some e2) →
        e2.Error = connRefused.Error →
        (GlobalStatus sampleDeps cli2 tr2).1.2 = some w :=
  C6_connection_error_message sampleDeps (failing connRefused) []
    { statusCode := 0, body := [] } connRefused rfl

/-- C6 (as stated) fails: two different transport errors with the same text
give the same returned error, so no function of the returned error gives the
cause back. -/
theorem C6_cause_not_recoverable :
    connRefused ≠ connRefusedOp ∧
    (GlobalStatus sampleDeps (failing connRefused) []).1.2
      = (GlobalStatus sampleDeps (failing connRefusedOp) []).1.2 ∧
    ¬ ∃ recover : GoError → ErrorValue, ∀ e : ErrorValue,
        recover (GlobalStatus sampleDeps (failing e) []).1.2 = e := by
  have hne : connRefused ≠ connRefusedOp := by decide
  have heq : (GlobalStatus sampleDeps (failing connRefused) []).1.2
      = (GlobalStatus sampleDeps (failing connRefusedOp) []).1.2 := by decide
  refine ⟨hne, heq, ?_⟩
  rintro ⟨recover, hr⟩
  apply hne
  rw [← hr connRefused, ← hr connRefusedOp, heq]

/-- The failing stage of a call in the transport branch. -/
theorem failingStage_transport {σ : Type} (d : Deps σ) (cli : Client) (tr : List Event)
    (r : Response) (e : ErrorValue)
    (h : cli.execute tr (cli.R.Get "/healthz") = (r, some e)) :
    failingStage d cli tr = some Stage.transport := by
  simp [failingStage, h]

/-- The failing stage of a call in the protocol branch. -/
theorem failingStage_protocol {σ : Type} (d : Deps σ) (cli : Client) (tr : List Event)
    (r : Response) (h : cli.execute tr (cli.R.Get "/healthz") = (r, none))
    (hc : r.StatusCode ≠ StatusOK) :
    failingStage d cli tr = some Stage.protocol := by
  simp [failingStage, h, hc]

/-- The failing stage of a call in the payload branch. -/
theorem failingStage_payload {σ : Type} (d : Deps σ) (cli : Client) (tr : List Event)
    (r : Response) (v : σ) (e : ErrorValue)
    (h : cli.execute tr (cli.R.Get "/healthz") = (r, none))
    (hc : r.StatusCode = StatusOK) (hu : d.Unmarshal r.Body d.zero = (v, some e)) :
    failingStage d cli tr = some Stage.payload := by
  simp [failingStage, h, hc, hu]

/-- The transport branch always returns a connection error, the other two
branches hand on the processor's and the decoder's error unchanged.  So when
neither collaborator ever yields a connection error and the two never yield
the same error, one function of the returned error tells which of the three
stages failed, for every call. -/
theorem stage_recoverable_of_disjoint_errors {σ : Type} (d : Deps σ)
    (hP : ∀ (body : Bytes) (e : ErrorValue),
      d.processErrorBody body Iface.nil = some e → ¬ IsConnectionError e)
    (hD : ∀ (body : Bytes) (e : ErrorValue),
      (d.Unmarshal body d.zero).2 = some e → ¬ IsConnectionError e)
    (hPD : ∀ (b1 b2 : Bytes) (e : ErrorValue),
      d.processErrorBody b1 Iface.nil = some e → (d.Unmarshal b2 d.zero).2 ≠ some e) :
    ∃ stageOf : ErrorValue → Stage, ∀ (cli : Client) (tr : List Event) (e : ErrorValue),
      (GlobalStatus d cli tr).1.2 = some e → failingStage d cli tr = some (stageOf e) := by
  classical
  refine ⟨fun e => if IsConnectionError e then Stage.transport
    else if ∃ b, d.processErrorBody b Iface.nil = some e then Stage.protocol
    else Stage.payload, ?_⟩
  intro cli tr e he
  show failingStage d cli tr = some (if IsConnectionError e then Stage.transport
    else if ∃ b, d.processErrorBody b Iface.nil = some e then Stage.protocol
    else Stage.payload)
  rcases GlobalStatus_cases d cli tr with ⟨r, c, h⟩ | ⟨r, h, hc⟩ | ⟨r, v, c, h, hc, hu⟩ |
    ⟨r, v, h, hc, hu⟩
  · rw [GlobalStatus_transport d cli tr r c h] at he
    have hce : Errorf "error while connecting to daemon: %s" c = e := by simpa using he
    have hconn : IsConnectionError e := ⟨c, hce.symm⟩
    rw [failingStage_transport d cli tr r c h, if_pos hconn]
  · rw [GlobalStatus_protocol d cli tr r h hc] at he
    have hpe : d.processErrorBody r.Body Iface.nil = some e := he
    rw [failingStage_protocol d cli tr r h hc, if_neg (hP r.Body e hpe),
      if_pos ⟨r.Body, hpe⟩]
  · rw [GlobalStatus_payload d cli tr r v c h hc hu] at he
    have hce : c = e := by simpa using he
    subst hce
    have hde : (d.Unmarshal r.Body d.zero).2 = some c := by rw [hu]
    have hnp : ¬ ∃ b, d.processErrorBody b Iface.nil = some c :=
      fun ⟨b, hb⟩ => hPD b r.Body c hb hde
    rw [failingStage_payload d cli tr r v c h hc hu, if_neg (hD r.Body c hde), if_neg hnp]
  · rw [GlobalStatus_success d cli tr r v h hc hu] at he
    simp at he

/-- The errors of the sample decoder carry one of the two JSON error types. -/
theorem sampleUnmarshal_error (body : Bytes) (v : SampleStatus) (e : ErrorValue)
    (h : (sampleUnmarshal body v).2 = some e) : e = jsonMismatch ∨ e = jsonMalformed := by
  unfold sampleUnmarshal at h
  split_ifs at h
  · exact Or.inl (by simpa using h.symm)
  · exact Or.inr (by simpa using h.symm)

/-- A connection error is a plain message error. -/
theorem IsConnectionError_dynType (e : ErrorValue) (h : IsConnectionError e) :
    e.dynType = "*errors.errorString" := by
  obtain ⟨c, hc⟩ := h
  rw [hc]
  rfl

/-- The sample collaborators meet the conditions of
`stage_recoverable_of_disjoint_errors`: their processor and decoder errors
have dynamic types of their own. -/
theorem stage_recoverable_at_sampleDeps :
    ∃ stageOf : ErrorValue → Stage, ∀ (cli : Client) (tr : List Event) (e : ErrorValue),
      (GlobalStatus sampleDeps cli tr).1.2 = some e →
      failingStage sampleDeps cli tr = some (stageOf e) :=
  stage_recoverable_of_disjoint_errors sampleDeps
    (fun _ e he hconn => by
      have h1 : e = { dynType := "*types.ServerError", msg := "server error" } := by
        simpa [sampleDeps, sampleProcess] using he.symm
      have h2 := IsConnectionError_dynType e hconn
      rw [h1] at h2
      revert h2
      decide)
    (fun body e he hconn => by
      have h2 := IsConnectionError_dynType e hconn
      rcases sampleUnmarshal_error body _ e he with h1 | h1 <;>
        (rw [h1] at h2; revert h2; decide))
    (fun _ b2 e he hde => by
      have h1 : e = { dynType := "*types.ServerError", msg := "server error" } := by
        simpa [sampleDeps, sampleProcess] using he.symm
      rcases sampleUnmarshal_error b2 _ e hde with h2 | h2 <;>
        (rw [h1] at h2; revert h2; decide))

/-- C8 (as amended): on every outcome the call invokes the request primitive
exactly once, with the request of `cli.R()` turned into a GET to the path
"/healthz"; the call sets no body and no query parameter on it.  The requests
that reach the transport are exactly those of this one invocation, so they are
exactly the one GET to "/healthz" without body and query parameters when
`cli.R()` is a request without them and the library hands the request to the
transport once. -/
theorem C8_one_invocation_of_the_request {σ : Type} (d : Deps σ) (cli : Client)
    (tr : List Event) :
    callsOf (GlobalStatus d cli tr).2 = callsOf tr ++ [cli.R.Get "/healthz"] ∧
    cli.R.Get "/healthz"
      = { method := "GET", url := "/healthz", body := cli.R.body,
          queryParam := cli.R.queryParam } ∧
    requestsOf (GlobalStatus d cli tr).2
      = requestsOf tr ++ cli.wire tr (cli.R.Get "/healthz") ∧
    (cli.R.body = none → cli.R.queryParam = [] →
      cli.wire tr (cli.R.Get "/healthz") = [cli.R.Get "/healthz"] →
      requestsOf (GlobalStatus d cli tr).2
        = requestsOf tr
          ++ [{ method := "GET", url := "/healthz", body := none, queryParam := [] }]) := by
  have hget : cli.R.Get "/healthz"
      = { method := "GET", url := "/healthz", body := cli.R.body,
          queryParam := cli.R.queryParam } := rfl
  have key : callsOf (GlobalStatus d cli tr).2 = callsOf tr ++ [cli.R.Get "/healthz"] ∧
      requestsOf (GlobalStatus d cli tr).2
        = requestsOf tr ++ cli.wire tr (cli.R.Get "/healthz") := by
    have hdo := Client_Do_trace cli (cli.R.Get "/healthz") tr
    rcases GlobalStatus_cases d cli tr with ⟨r, e, h⟩ | ⟨r, h, hc⟩ | ⟨r, v, e, h, hc, hu⟩ |
      ⟨r, v, h, hc, hu⟩
    · rw [GlobalStatus_transport d cli tr r e h]
      exact hdo
    · rw [GlobalStatus_protocol d cli tr r h hc]
      simp only [callsOf_append, requestsOf_append, hdo.1, hdo.2]
      simp [callsOf, requestsOf]
    · rw [GlobalStatus_payload d cli tr r v e h hc hu]
      simp only [callsOf_append, requestsOf_append, hdo.1, hdo.2]
      simp [callsOf, requestsOf]
    · rw [GlobalStatus_success d cli tr r v h hc hu]
      simp only [callsOf_append, requestsOf_append, hdo.1, hdo.2]
      simp [callsOf, requestsOf]
  refine ⟨key.1, hget, key.2, ?_⟩
  intro hb hq hw
  rw [key.2, hw, hget, hb, hq]

/-- C8 (as amended) at a daemon that answers 200 with `{"cilium":"OK"}`. -/
theorem C8_one_invocation_of_the_request_witness :
    callsOf (GlobalStatus sampleDeps (answering 200 bodyCiliumOK) []).2
      = [{ method := "GET", url := "/healthz", body := none, queryParam := [] }] ∧
    requestsOf (GlobalStatus sampleDeps (answering 200 bodyCiliumOK) []).2
      = requestsOf []
        ++ [{ method := "GET", url := "/healthz", body := none, queryParam := [] }] :=
  ⟨(C8_one_invocation_of_the_request sampleDeps (answering 200 bodyCiliumOK) []).1,
    (C8_one_invocation_of_the_request sampleDeps (answering 200 bodyCiliumOK) []).2.2.2
      rfl rfl rfl⟩

/-- C8 (as stated) fails: when the request fails before it is sent, the call
ends with the transport error and no request has reached the transport, where
the claim counts exactly one on every outcome. -/
theorem C8_no_request_before_send :
    failingStage sampleDeps (failingBeforeSend badHostURL) [] = some Stage.transport ∧
    (GlobalStatus sampleDeps (failingBeforeSend badHostURL) []).1.2
      = some (errorsNew ("error while connecting to daemon: " ++ badHostURL.msg)) ∧
    requestsOf (GlobalStatus sampleDeps (failingBeforeSend badHostURL) []).2 = [] ∧
    (requestsOf (GlobalStatus sampleDeps (failingBeforeSend badHostURL) []).2).length ≠ 1 ∧
    ¬ (requestsOf (GlobalStatus sampleDeps (failingBeforeSend badHostURL) []).2
        = requestsOf []
          ++ [{ method := "GET", url := "/healthz", body := none, queryParam := [] }]) := by
  decide

/-- C9: whenever the call returns a non-nil error, its result is nil. -/
theorem C9_error_implies_nil_result {σ : Type} (d : Deps σ) (cli : Client)
    (tr : List Event) (herr : (GlobalStatus d cli tr).1.2 ≠ none) :
    (GlobalStatus d cli tr).1.1 = none := by
  rcases GlobalStatus_cases d cli tr with ⟨r, e, h⟩ | ⟨r, h, hc⟩ | ⟨r, v, e, h, hc, hu⟩ |
    ⟨r, v, h, hc, hu⟩
  · rw [GlobalStatus_transport d cli tr r e h]
  · rw [GlobalStatus_protocol d cli tr r h hc]
  · rw [GlobalStatus_payload d cli tr r v e h hc hu]
  · rw [GlobalStatus_success d cli tr r v h hc hu] at herr
    simp at herr

/-- C9 at a decoder that fills the `cilium` field before it fails: the filled
value is not returned. -/
theorem C9_error_implies_nil_result_witness :
    (partialDeps.Unmarshal bodyCiliumOK partialDeps.zero).1 = { cilium := "OK" } ∧
    (GlobalStatus partialDeps (answering 200 bodyCiliumOK) []).1.2 ≠ none ∧
    (GlobalStatus partialDeps (answering 200 bodyCiliumOK) []).1.1 = none :=
  ⟨rfl, by decide,
    C9_error_implies_nil_result partialDeps (answering 200 bodyCiliumOK) [] (by decide)⟩

/-- C10: the result is non-nil exactly when the request returned no error, the
status code is 200 and the decoder accepted the body.  The stages are checked
in this order: a transport error decides the outcome whatever the status code
and the body are, and a status code other than 200 (201 and 204 included)
sends the body to the error-body processor whatever the decoder would do. -/
theorem C10_result_iff_all_stages_succeed {σ : Type} (d : Deps σ) (cli : Client)
    (tr : List Event) :
    ((GlobalStatus d cli tr).1.1 ≠ none ↔
      (cli.execute tr (cli.R.Get "/healthz")).2 = none ∧
      (cli.execute tr (cli.R.Get "/healthz")).1.StatusCode = 200 ∧
      (d.Unmarshal (cli.execute tr (cli.R.Get "/healthz")).1.Body d.zero).2 = none) ∧
    (∀ e : ErrorValue, (cli.execute tr (cli.R.Get "/healthz")).2 = some e →
      (GlobalStatus d cli tr).1
        = (none, some (Errorf "error while connecting to daemon: %s" e))) ∧
    ((cli.execute tr (cli.R.Get "/healthz")).2 = none →
      (cli.execute tr (cli.R.Get "/healthz")).1.StatusCode ≠ 200 →
      (GlobalStatus d cli tr).1
        = (none, d.processErrorBody (cli.execute tr (cli.R.Get "/healthz")).1.Body Iface.nil)) := by
  rcases GlobalStatus_cases d cli tr with ⟨r, e, h⟩ | ⟨r, h, hc⟩ | ⟨r, v, e, h, hc, hu⟩ |
    ⟨r, v, h, hc, hu⟩
  · rw [GlobalStatus_transport d cli tr r e h, h]
    simp
  · have hc2 : ¬ r.StatusCode = 200 := hc
    rw [GlobalStatus_protocol d cli tr r h hc, h]
    simp [hc2]
  · have hc2 : r.StatusCode = 200 := hc
    rw [GlobalStatus_payload d cli tr r v e h hc hu, h]
    simp [hc2, hu]
  · have hc2 : r.StatusCode = 200 := hc
    rw [GlobalStatus_success d cli tr r v h hc hu, h]
    simp [hc2, hu]

/-- C10 at status 204 with a body the decoder would accept, and at a transport
error that comes with a status 200 response. -/
theorem C10_result_iff_all_stages_succeed_witness :
    (GlobalStatus sampleDeps (answering 204 bodyCiliumOK) []).1
      = (none, sampleProcess bodyCiliumOK Iface.nil) ∧
    (GlobalStatus sampleDeps (answeringWithError 200 bodyCiliumOK connRefused) []).1
      = (none, some (Errorf "error while connecting to daemon: %s" connRefused)) :=
  ⟨(C10_result_iff_all_stages_succeed sampleDeps (answering 204 bodyCiliumOK) []).2.2
      rfl (by decide),
    (C10_result_iff_all_stages_succeed sampleDeps
      (answeringWithError 200 bodyCiliumOK connRefused) []).2.1 connRefused rfl⟩

end CiliumClient
